import Mathlib

/-!
Shallow embedding of `src/App.tsx` (the single screen of the satellite
pass-prediction client) together with the behaviour of its two asynchronous
handlers `fetchPasses` and `getUserLocation`, its button `disabled`
predicates, and its render of the pass list.

Modelling conventions:
* JavaScript numbers are modelled as `ℚ` (the claims only exercise values
  where rationals and IEEE doubles agree exactly).
* The environment's responses (the `fetch` transport, `response.json()`
  decoding, the permission prompt, the GPS query) are passed to the handler
  as an explicit outcome value; the handler returns the alerts it raised,
  the number of requests it issued, and the successor component state.
* React `useState` state is the record `AppState`; a single `set...` call
  is one atomic field update of that record.
-/

/-- An arbitrary decoded JSON value, as produced by `response.json()`.
`setPasses(data)` stores such a value verbatim, with no shape check. -/
inductive Json where
  | null
  | bool (b : Bool)
  | num (q : ℚ)
  | str (s : String)
  | arr (elems : List Json)
  | obj (fields : List (String × Json))

/-- The component state of `App`: the two coordinate text fields, the stored
pass data, and the loading flag (`selectedSatellite` is a constant). -/
structure AppState where
  lat : String
  lng : String
  passes : Json
  loading : Bool

/-- The initial `useState` values: empty coordinates, empty pass array,
not loading. -/
def initialState : AppState :=
  { lat := "", lng := "", passes := Json.arr [], loading := false }

/-- Outcome of `response.json()`: either the promise rejects (undecodable
body) or it resolves with a decoded JSON value. -/
inductive BodyResult where
  | decodeError
  | decoded (v : Json)

/-- Outcome of the `fetch` call: either the promise rejects (network
failure), or a response arrives carrying its `ok` flag (2xx status) and the
result of decoding its body. -/
inductive FetchOutcome where
  | networkError
  | response (ok : Bool) (body : BodyResult)

/-- Observable result of one run of the `fetchPasses` handler: the alerts
shown (title, message), the number of network requests issued, and the
component state after the handler returns. -/
structure FetchResult where
  alerts : List (String × String)
  requests : Nat
  finalState : AppState

/-- `fetchPasses` from App.tsx, lines 39-65.  Guard: `!location.lat ||
!location.lng` (a string is falsy exactly when empty) alerts and returns
without a request.  Otherwise: `setLoading(true)`, one `fetch`, then
`response.json()` and `setPasses(data)` — note the `ok` flag is never
inspected; any throw is caught and alerts
`('Error', 'Failed to fetch satellite passes')`; finally
`setLoading(false)`. -/
def fetchPasses (s : AppState) (o : FetchOutcome) : FetchResult :=
  if s.lat = "" ∨ s.lng = "" then
    { alerts := [("Error", "Please enter location coordinates")]
      requests := 0
      finalState := s }
  else
    match o with
    | .networkError =>
        { alerts := [("Error", "Failed to fetch satellite passes")]
          requests := 1
          finalState := { s with loading := false } }
    | .response _ .decodeError =>
        { alerts := [("Error", "Failed to fetch satellite passes")]
          requests := 1
          finalState := { s with loading := false } }
    | .response _ (.decoded v) =>
        { alerts := []
          requests := 1
          finalState := { s with passes := v, loading := false } }

/-- Outcome of `Location.getCurrentPositionAsync`: rejection, or a position
with floating coordinates. -/
inductive PositionResult where
  | posError
  | position (latitude longitude : ℚ)

/-- Outcome of the expo-location calls inside `getUserLocation`: the
permission request rejects, or it resolves with a status string followed by
(if the handler proceeds) the position query's outcome. -/
inductive LocOutcome where
  | permError
  | permStatus (status : String) (pos : PositionResult)

/-- Observable result of one run of the `getUserLocation` handler. -/
structure LocResult where
  alerts : List (String × String)
  permissionRequests : Nat
  positionQueries : Nat
  finalState : AppState

/-- JavaScript `Math.round`: round to nearest, ties toward +∞
(`Math.round(x) = ⌊x + 0.5⌋` for finite x). -/
def jsRound (q : ℚ) : ℤ := ⌊q + 1 / 2⌋

/-- Left-pad a digit string with zeros to length `f`. -/
def padZeros (f : Nat) (s : String) : String :=
  String.mk (List.replicate (f - s.length) '0') ++ s

/-- `Number.prototype.toFixed(f)` for a nonnegative argument: the integer
`n` nearest to `q·10^f` (ties to the larger `n`), printed with `f`
fractional digits. -/
def toFixedPos (f : Nat) (q : ℚ) : String :=
  let n : Nat := (⌊q * (10 : ℚ) ^ f + 1 / 2⌋).toNat
  let base : Nat := 10 ^ f
  toString (n / base) ++ "." ++ padZeros f (toString (n % base))

/-- `x.toFixed(4)` as in App.tsx lines 77-78: ECMAScript prepends the sign
for a negative receiver and rounds the magnitude. -/
def toFixed4 (q : ℚ) : String :=
  if q < 0 then "-" ++ toFixedPos 4 (-q) else toFixedPos 4 q

/-- `getUserLocation` from App.tsx, lines 67-84.  The permission request is
always issued; a status other than `'granted'` alerts
`('Permission denied', 'Location permission is required')` and returns
without querying the position; on a granted status the position is queried
and both coordinate fields are overwritten by one `setLocation` call with
the components' `toFixed(4)` strings; any rejection is caught and alerts
`('Error', 'Failed to get location')`. -/
def getUserLocation (s : AppState) (o : LocOutcome) : LocResult :=
  match o with
  | .permError =>
      { alerts := [("Error", "Failed to get location")]
        permissionRequests := 1
        positionQueries := 0
        finalState := s }
  | .permStatus status pos =>
      if status ≠ "granted" then
        { alerts := [("Permission denied", "Location permission is required")]
          permissionRequests := 1
          positionQueries := 0
          finalState := s }
      else
        match pos with
        | .posError =>
            { alerts := [("Error", "Failed to get location")]
              permissionRequests := 1
              positionQueries := 1
              finalState := s }
        | .position la lo =>
            { alerts := []
              permissionRequests := 1
              positionQueries := 1
              finalState := { s with lat := toFixed4 la, lng := toFixed4 lo } }

/-- The `disabled` prop of the Predict Passes button (App.tsx line 135):
`!location.lat || !location.lng || loading`. -/
def predictDisabled (s : AppState) : Bool :=
  (s.lat == "") || (s.lng == "") || s.loading

/-- The Get My Location button (App.tsx lines 125-130) carries no
`disabled` prop: it is enabled in every state. -/
def getMyLocationDisabled (_ : AppState) : Bool := false

/-- One predicted pass as typed in App.tsx (`interface SatellitePass`). -/
structure SatellitePass where
  startTime : String
  endTime : String
  maxElevation : ℚ
  duration : ℚ
  azimuthStart : ℚ
  azimuthEnd : ℚ

/-- JavaScript template interpolation of a number.  An integral number
prints with no decimal point; non-integral values (never produced by the
claims' inputs, whose quotients are exact) get a deterministic fallback. -/
def jsNumToString (q : ℚ) : String :=
  if q.den = 1 then toString q.num else toString q

/-- The text content of one rendered pass card (App.tsx lines 146-167).
The rise/set fields record the string handed to
`new Date(_).toLocaleString()`; the locale-dependent formatting itself is
environment state and no claim asserts on it. -/
structure PassCard where
  riseTimeInput : String
  setTimeInput : String
  maxElevationText : String
  durationText : String

/-- Rendering of one pass: elevation interpolated and suffixed with a
degree sign, duration shown as `Math.round(pass.duration / 60)` followed
by " minutes". -/
def renderPass (p : SatellitePass) : PassCard :=
  { riseTimeInput := p.startTime
    setTimeInput := p.endTime
    maxElevationText := jsNumToString p.maxElevation ++ "°"
    durationText := toString (jsRound (p.duration / 60)) ++ " minutes" }

/-- JSON field lookup (first match), as JS property access on a decoded
object. -/
def getField : List (String × Json) → String → Option Json
  | [], _ => none
  | (k, v) :: rest, key => if k = key then some v else getField rest key

/-- Project a JSON string value. -/
def asString : Json → Option String
  | .str s => some s
  | _ => none

/-- Project a JSON number value. -/
def asNumber : Json → Option ℚ
  | .num q => some q
  | _ => none

/-- A decoded JSON value is a well-formed pass object when every field the
render reads is present with the expected type. -/
def decodePass (j : Json) : Option SatellitePass :=
  match j with
  | .obj fs =>
      match (getField fs "startTime").bind asString,
            (getField fs "endTime").bind asString,
            (getField fs "maxElevation").bind asNumber,
            (getField fs "duration").bind asNumber,
            (getField fs "azimuthStart").bind asNumber,
            (getField fs "azimuthEnd").bind asNumber with
      | some st, some et, some me, some du, some a1, some a2 =>
          some { startTime := st, endTime := et, maxElevation := me,
                 duration := du, azimuthStart := a1, azimuthEnd := a2 }
      | _, _, _, _, _, _ => none
  | _ => none

/-- Decode each element of a JSON list as a pass, in order. -/
def decodePassList : List Json → Option (List SatellitePass)
  | [] => some []
  | j :: js =>
      match decodePass j, decodePassList js with
      | some p, some ps => some (p :: ps)
      | _, _ => none

/-- A well-formed response body: a JSON array of well-formed pass
objects. -/
def decodePasses : Json → Option (List SatellitePass)
  | .arr js => decodePassList js
  | _ => none

/-- The canonical JSON encoding of one pass object, as the remote service
sends it (§6 of the spec). -/
def encodePass (p : SatellitePass) : Json :=
  .obj [("startTime", .str p.startTime), ("endTime", .str p.endTime),
        ("maxElevation", .num p.maxElevation), ("duration", .num p.duration),
        ("azimuthStart", .num p.azimuthStart), ("azimuthEnd", .num p.azimuthEnd)]

/-- The canonical JSON encoding of a pass list. -/
def encodePasses (ps : List SatellitePass) : Json :=
  .arr (ps.map encodePass)

/-- What `App` renders below the buttons (App.tsx lines 141-170): the
spinner while `loading`; otherwise `passes.map(...)`, one card per element
in source order — meaningful exactly on well-formed stored data. -/
def renderApp (s : AppState) : Option (List PassCard) :=
  if s.loading then none
  else (decodePasses s.passes).map (fun ps => ps.map renderPass)

/-- Does the list `hay` start with the list `needle`? -/
def startsWithChars : List Char → List Char → Bool
  | [], _ => true
  | _ :: _, [] => false
  | a :: as, b :: bs => a == b && startsWithChars as bs

/-- Does `needle` occur contiguously inside `hay`? -/
def hasSub (needle : List Char) : List Char → Bool
  | [] => startsWithChars needle []
  | c :: rest => startsWithChars needle (c :: rest) || hasSub needle rest

/-- JS `String.prototype.includes` / jest `stringContaining`: substring
test. -/
def strContainsB (hay needle : String) : Bool :=
  hasSub needle.toList hay.toList

/-- Classifies fetch outcomes the handler's `catch` treats as failures:
a rejected `fetch` or a rejected `response.json()`.  A decoded body is a
success regardless of HTTP status. -/
def FetchOutcome.isError : FetchOutcome → Bool
  | .networkError => true
  | .response _ .decodeError => true
  | .response _ (.decoded _) => false

/-- Classifies location outcomes that end in an alert rather than a
coordinate update: a rejected permission call, a non-granted status, or a
rejected position query. -/
def LocOutcome.isError : LocOutcome → Bool
  | .permError => true
  | .permStatus st pos =>
      if st ≠ "granted" then true
      else
        match pos with
        | .posError => true
        | .position _ _ => false

/-- The pass record from the repository's test fixture, with the §8
duration example of 420 seconds. -/
def samplePass : SatellitePass :=
  { startTime := "2024-12-04 00:15:56", endTime := "2024-12-04 00:22:56",
    maxElevation := 77, duration := 420, azimuthStart := 230, azimuthEnd := 50 }

theorem decodePass_encodePass (p : SatellitePass) :
    decodePass (encodePass p) = some p := rfl

theorem decodePassList_map_encodePass (ps : List SatellitePass) :
    decodePassList (ps.map encodePass) = some ps := by
  induction ps with
  | nil => rfl
  | cons p ps ih => simp [decodePassList, decodePass_encodePass, ih]

theorem decodePasses_encodePasses (ps : List SatellitePass) :
    decodePasses (encodePasses ps) = some ps := by
  simp [decodePasses, encodePasses, decodePassList_map_encodePass]

/-- C1: the claim says an out-of-range latitude (e.g. "91") fails
validation, triggers a notification containing "Invalid coordinates", and
issues zero network requests.  The code performs no range validation at
all: with latitude "91" and any nonempty longitude the request is issued
and no alert is raised, and with an empty longitude the only alert is
"Please enter location coordinates", which does not contain
"Invalid coordinates". -/
theorem c1_out_of_range_not_validated :
    (fetchPasses { lat := "91", lng := "1", passes := Json.arr [], loading := false }
        (.response true (.decoded (Json.arr [])))).requests = 1 ∧
    (fetchPasses { lat := "91", lng := "1", passes := Json.arr [], loading := false }
        (.response true (.decoded (Json.arr [])))).alerts = [] ∧
    (fetchPasses { lat := "91", lng := "", passes := Json.arr [], loading := false }
        (.response true (.decoded (Json.arr [])))).alerts =
      [("Error", "Please enter location coordinates")] ∧
    strContainsB "Please enter location coordinates" "Invalid coordinates" = false :=
  ⟨rfl, rfl, rfl, by decide⟩

/-- C2 counterexample: a response with a non-2xx status (`ok = false`)
whose body decodes as JSON is accepted as the pass list — no failure, no
notification — refuting the claim that every non-2xx response fails like a
network error. -/
theorem c2_non2xx_json_accepted :
    (fetchPasses { lat := "1", lng := "2", passes := Json.arr [], loading := false }
        (.response false (.decoded (Json.arr [Json.num 5])))).alerts = [] ∧
    (fetchPasses { lat := "1", lng := "2", passes := Json.arr [], loading := false }
        (.response false (.decoded (Json.arr [Json.num 5])))).finalState.passes =
      Json.arr [Json.num 5] ∧
    (fetchPasses { lat := "1", lng := "2", passes := Json.arr [], loading := false }
        (.response false (.decoded (Json.arr [Json.num 5])))).requests = 1 :=
  ⟨rfl, rfl, rfl⟩

/-- C2 (amended): `fetchPasses` fails with the single fetch-failure alert
exactly when the network call rejects or the body fails to decode as JSON;
the HTTP status flag is never inspected, so a decoded body is accepted
verbatim regardless of status. -/
theorem c2_fetch_error_classification (s : AppState)
    (hlat : s.lat ≠ "") (hlng : s.lng ≠ "") :
    (fetchPasses s .networkError).alerts =
        [("Error", "Failed to fetch satellite passes")] ∧
    (∀ ok : Bool, (fetchPasses s (.response ok .decodeError)).alerts =
        [("Error", "Failed to fetch satellite passes")]) ∧
    (∀ (ok : Bool) (v : Json),
        (fetchPasses s (.response ok (.decoded v))).alerts = [] ∧
        (fetchPasses s (.response ok (.decoded v))).finalState.passes = v) := by
  refine ⟨by simp [fetchPasses, hlat, hlng], fun ok => by simp [fetchPasses, hlat, hlng],
    fun ok v => ⟨by simp [fetchPasses, hlat, hlng], by simp [fetchPasses, hlat, hlng]⟩⟩

/-- C2 witness: the amended classification at a concrete state and
network failure. -/
theorem c2_fetch_error_classification_witness :
    (fetchPasses { lat := "1", lng := "2", passes := Json.arr [], loading := false }
        .networkError).alerts = [("Error", "Failed to fetch satellite passes")] :=
  (c2_fetch_error_classification
    { lat := "1", lng := "2", passes := Json.arr [], loading := false }
    (by decide) (by decide)).1

/-- C3: the claim says the failure notification's message contains
"Failed to fetch passes".  The code's message is
"Failed to fetch satellite passes", and "Failed to fetch passes" is not a
substring of it (the repository's own test asserts that substring, so the
code contradicts its test). -/
theorem c3_alert_message_mismatch :
    (fetchPasses { lat := "1", lng := "2", passes := Json.arr [], loading := false }
        .networkError).alerts = [("Error", "Failed to fetch satellite passes")] ∧
    strContainsB "Failed to fetch satellite passes" "Failed to fetch passes" = false :=
  ⟨rfl, by decide⟩

/-- C4 counterexample: the component state is unchanged while a location
request is pending (the handler writes nothing before the awaited calls
settle), and in that state the Get My Location control is not disabled and
a second press runs the handler, issuing a fresh permission request — so a
second concurrent device-location request can be issued. -/
theorem c4_location_trigger_unguarded :
    getMyLocationDisabled
        { lat := "1", lng := "2", passes := Json.arr [], loading := false } = false ∧
    (getUserLocation { lat := "1", lng := "2", passes := Json.arr [], loading := false }
        (.permStatus "granted" (.position 0 0))).permissionRequests = 1 :=
  ⟨rfl, rfl⟩

/-- C4 (amended): while a prediction request is in flight (`loading`),
the Predict Passes control is disabled, so no second concurrent prediction
request can be issued; the Get My Location control is never disabled in
any state, so re-entrant location triggering is not prevented. -/
theorem c4_inflight_guard_asymmetry (s : AppState) (h : s.loading = true) :
    predictDisabled s = true ∧ ∀ t : AppState, getMyLocationDisabled t = false := by
  exact ⟨by simp [predictDisabled, h], fun t => rfl⟩

/-- C4 witness: the amended guard statement at a concrete loading state. -/
theorem c4_inflight_guard_asymmetry_witness :
    predictDisabled { lat := "1", lng := "2", passes := Json.arr [], loading := true } = true :=
  (c4_inflight_guard_asymmetry
    { lat := "1", lng := "2", passes := Json.arr [], loading := true } rfl).1

/-- C5 counterexample: with a nonempty stored pass list, a failed fetch
leaves the list exactly as it was — it is not reset to the empty
sequence, refuting the claim's reset-on-error clause. -/
theorem c5_passes_kept_on_error :
    (fetchPasses { lat := "1", lng := "2", passes := Json.arr [Json.num 5], loading := true }
        .networkError).finalState.passes = Json.arr [Json.num 5] ∧
    Json.arr [Json.num 5] ≠ Json.arr [] := by
  exact ⟨rfl, by simp⟩

/-- C5 (amended): the stored pass value is replaced as a whole by the
decoded body of each successful fetch and is otherwise left unchanged: a
network failure or decode failure keeps the previous value (no reset to
empty on error, and no reset before the next fetch begins). -/
theorem c5_passes_lifecycle (s : AppState) (hlat : s.lat ≠ "") (hlng : s.lng ≠ "") :
    (∀ (ok : Bool) (v : Json),
        (fetchPasses s (.response ok (.decoded v))).finalState.passes = v) ∧
    (fetchPasses s .networkError).finalState.passes = s.passes ∧
    (∀ ok : Bool, (fetchPasses s (.response ok .decodeError)).finalState.passes = s.passes) := by
  refine ⟨fun ok v => by simp [fetchPasses, hlat, hlng],
    by simp [fetchPasses, hlat, hlng], fun ok => by simp [fetchPasses, hlat, hlng]⟩

/-- C5 witness: the amended lifecycle at a concrete state and a concrete
successful body. -/
theorem c5_passes_lifecycle_witness :
    (fetchPasses { lat := "1", lng := "2", passes := Json.arr [Json.num 5], loading := true }
        (.response true (.decoded (Json.arr [])))).finalState.passes = Json.arr [] :=
  (c5_passes_lifecycle
    { lat := "1", lng := "2", passes := Json.arr [Json.num 5], loading := true }
    (by decide) (by decide)).1 true (Json.arr [])

/-- C6: for every well-formed successful response the rendered card list
is exactly the decoded passes mapped through `renderPass` in source order
(so count equals decoded length and element i renders element i, with no
re-sorting or deduplication), elevation 77 displays as "77°", and a
420-second duration displays as "7 minutes" (seconds divided by 60,
rounded to the nearest whole minute). -/
theorem c6_render_success (ps : List SatellitePass) (s : AppState) (ok : Bool)
    (hlat : s.lat ≠ "") (hlng : s.lng ≠ "") :
    renderApp (fetchPasses s (.response ok (.decoded (encodePasses ps)))).finalState =
      some (ps.map renderPass) ∧
    (ps.map renderPass).length = ps.length ∧
    (∀ i : Nat, (ps.map renderPass)[i]? = ps[i]?.map renderPass) ∧
    (renderPass samplePass).maxElevationText = "77°" ∧
    (renderPass samplePass).durationText = "7 minutes" := by
  have hfinal : (fetchPasses s (.response ok (.decoded (encodePasses ps)))).finalState =
      { s with passes := encodePasses ps, loading := false } := by
    simp [fetchPasses, hlat, hlng]
  have hdur : jsRound ((420 : ℚ) / 60) = 7 := by rw [jsRound]; norm_num
  refine ⟨?_, by simp, fun i => by simp, by decide, ?_⟩
  · rw [hfinal]
    simp [renderApp, decodePasses_encodePasses]
  · show toString (jsRound ((420 : ℚ) / 60)) ++ " minutes" = "7 minutes"
    rw [hdur]
    decide

/-- C6 witness: the render correspondence at a concrete state and the
concrete single-pass response from the repository's test. -/
theorem c6_render_success_witness :
    renderApp (fetchPasses { lat := "1", lng := "2", passes := Json.arr [], loading := true }
        (.response true (.decoded (encodePasses [samplePass])))).finalState =
      some ([samplePass].map renderPass) :=
  (c6_render_success [samplePass]
    { lat := "1", lng := "2", passes := Json.arr [], loading := true }
    true (by decide) (by decide)).1

/-- C7: a permission status other than granted produces exactly the alert
pair ("Permission denied", "Location permission is required"), performs no
position query, and leaves the component state — in particular both
coordinate fields — unchanged. -/
theorem c7_permission_denied (s : AppState) (st : String) (pos : PositionResult)
    (h : st ≠ "granted") :
    (getUserLocation s (.permStatus st pos)).alerts =
      [("Permission denied", "Location permission is required")] ∧
    (getUserLocation s (.permStatus st pos)).positionQueries = 0 ∧
    (getUserLocation s (.permStatus st pos)).finalState = s := by
  refine ⟨?_, ?_, ?_⟩ <;> simp [getUserLocation, h]

/-- C7 witness: the denial behaviour at the initial state and status
"denied". -/
theorem c7_permission_denied_witness :
    (getUserLocation initialState (.permStatus "denied" .posError)).alerts =
      [("Permission denied", "Location permission is required")] :=
  (c7_permission_denied initialState "denied" .posError (by decide)).1

/-- C8: a successful device-location query overwrites both coordinate
fields in the single `setLocation` update, each component rendered with
`toFixed(4)`; the query (37.7749, -122.4194) yields exactly the field
values "37.7749" and "-122.4194". -/
theorem c8_location_success (s : AppState) (la lo : ℚ) :
    (getUserLocation s (.permStatus "granted" (.position la lo))).finalState =
      { s with lat := toFixed4 la, lng := toFixed4 lo } ∧
    (getUserLocation s (.permStatus "granted" (.position la lo))).alerts = [] ∧
    toFixed4 (37.7749 : ℚ) = "37.7749" ∧
    toFixed4 (-122.4194 : ℚ) = "-122.4194" := by
  refine ⟨by simp [getUserLocation], by simp [getUserLocation], ?_, ?_⟩
  · rw [toFixed4, if_neg (by norm_num)]
    norm_num [toFixedPos]
    decide
  · rw [toFixed4, if_pos (by norm_num)]
    norm_num [toFixedPos]
    decide

/-- C9: after every outcome the two handlers classify as an error, the
loading flag is false (for `fetchPasses` it is reset after the catch; for
`getUserLocation`, which never sets it, the pre-trigger value persists)
and the triggers are usable again: the predict button is enabled since the
nonempty coordinates are preserved, and the location button is enabled in
every state. -/
theorem c9_idle_after_error :
    (∀ (s : AppState) (o : FetchOutcome), o.isError = true →
        s.lat ≠ "" → s.lng ≠ "" →
        ((fetchPasses s o).finalState.loading = false ∧
         predictDisabled (fetchPasses s o).finalState = false ∧
         getMyLocationDisabled (fetchPasses s o).finalState = false)) ∧
    (∀ (s : AppState) (o : LocOutcome), o.isError = true → s.loading = false →
        ((getUserLocation s o).finalState.loading = false ∧
         getMyLocationDisabled (getUserLocation s o).finalState = false ∧
         (getUserLocation s o).finalState = s)) := by
  constructor
  · intro s o he hlat hlng
    match o with
    | .networkError =>
        refine ⟨by simp [fetchPasses, hlat, hlng], ?_, rfl⟩
        simp [fetchPasses, predictDisabled, hlat, hlng]
    | .response ok .decodeError =>
        refine ⟨by simp [fetchPasses, hlat, hlng], ?_, rfl⟩
        simp [fetchPasses, predictDisabled, hlat, hlng]
    | .response ok (.decoded v) =>
        simp [FetchOutcome.isError] at he
  · intro s o he hs
    match o with
    | .permError => exact ⟨hs, rfl, rfl⟩
    | .permStatus st pos =>
        by_cases hst : st = "granted"
        · match pos with
          | .posError =>
              refine ⟨?_, rfl, ?_⟩ <;> simp [getUserLocation, hst, hs]
          | .position la lo =>
              rw [LocOutcome.isError] at he
              simp [hst] at he
        · refine ⟨?_, rfl, ?_⟩ <;> simp [getUserLocation, hst, hs]

/-- C9 witness: the idle-return property at concrete error outcomes of
both handlers. -/
theorem c9_idle_after_error_witness :
    (fetchPasses { lat := "1", lng := "2", passes := Json.arr [], loading := true }
        .networkError).finalState.loading = false ∧
    (getUserLocation initialState .permError).finalState.loading = false :=
  ⟨(c9_idle_after_error.1
      { lat := "1", lng := "2", passes := Json.arr [], loading := true }
      .networkError rfl (by decide) (by decide)).1,
   (c9_idle_after_error.2 initialState .permError rfl rfl).1⟩

/-- C10: with nonempty coordinate fields, any outcome whose body decodes
as JSON — whatever the HTTP status and whatever the decoded shape — raises
no alert, counts as the one issued request, and stores the decoded value
verbatim as the pass data: the handler performs no shape validation. -/
theorem c10_no_shape_validation (s : AppState) (hlat : s.lat ≠ "") (hlng : s.lng ≠ "")
    (ok : Bool) (v : Json) :
    (fetchPasses s (.response ok (.decoded v))).alerts = [] ∧
    (fetchPasses s (.response ok (.decoded v))).requests = 1 ∧
    (fetchPasses s (.response ok (.decoded v))).finalState.passes = v := by
  refine ⟨?_, ?_, ?_⟩ <;> simp [fetchPasses, hlat, hlng]

/-- C10 witness: a non-2xx response whose body is the JSON string
"nonsense" is stored verbatim as the pass data. -/
theorem c10_no_shape_validation_witness :
    (fetchPasses { lat := "1", lng := "2", passes := Json.arr [], loading := true }
        (.response false (.decoded (Json.str "nonsense")))).finalState.passes =
      Json.str "nonsense" :=
  (c10_no_shape_validation
    { lat := "1", lng := "2", passes := Json.arr [], loading := true }
    (by decide) (by decide) false (Json.str "nonsense")).2.2
